import Mathlib

/-!
Shallow embedding of `src/draw_buffer.rs` from rust-offscreen-rendering-context.

The Rust module manages an offscreen draw buffer: a GL framebuffer object with
a mandatory color renderbuffer and optional depth / stencil renderbuffers.
Every GL entry point the module calls is modelled as a pure state transformer
over `GLState`, which records the trace of backend calls (`events`) and how
many object names have been generated so far.  The GL backend itself is a
parameter (`GLBackend`): it decides which name each `glGenRenderbuffers` /
`glGenFramebuffers` call hands back, so both a healthy backend (fresh nonzero
names) and a failing one (zero names) are expressible.  `debug_assert!` lines
of the source are compiled out in release builds, so the embedding — which
models the production semantics — omits them.
-/

namespace OffscreenCtx

/-! ### GL enum constants (values from the `gleam::gl` bindings) -/

def RENDERBUFFER : Nat := 0x8D41
def FRAMEBUFFER : Nat := 0x8D40
def RGBA4 : Nat := 0x8056
def DEPTH_COMPONENT16 : Nat := 0x81A5
def STENCIL_INDEX8 : Nat := 0x8D48
def COLOR_ATTACHMENT0 : Nat := 0x8CE0
def DEPTH_ATTACHMENT : Nat := 0x8D00
def STENCIL_ATTACHMENT : Nat := 0x8D20

/-! ### External collaborators: sizes, context attributes and capabilities -/

/-- `geom::Size2D<i32>`: dimensions of the draw buffer. -/
structure Size2D where
  width : Int
  height : Int
deriving DecidableEq, Repr

/-- `GLContextAttributes`: the boolean attribute flags the context was
asked for (consumed read-only by `DrawBuffer`). -/
structure GLContextAttributes where
  alpha : Bool
  depth : Bool
  stencil : Bool
  antialias : Bool
deriving DecidableEq, Repr

/-- `GLContextCapabilities`: negotiated capabilities; `max_samples == 0`
means no multisample support. -/
structure GLContextCapabilities where
  max_samples : Nat
deriving DecidableEq, Repr

/-- The `GLContext` collaborator, as consumed through its narrow interface:
attribute / capability queries plus `make_current`, whose outcome for this
context is the field `make_current_result`. -/
structure GLContext where
  attributes : GLContextAttributes
  capabilities : GLContextCapabilities
  make_current_result : Except String Unit
deriving Repr

def GLContext.borrow_attributes (c : GLContext) : GLContextAttributes :=
  c.attributes

def GLContext.borrow_capabilities (c : GLContext) : GLContextCapabilities :=
  c.capabilities

/-! ### The GL backend trace -/

/-- One call into the GL backend (or into the context), as the draw-buffer
module issues them.  Handles are `Nat` (GLuint). -/
inductive GLEvent where
  | genRenderbuffers (handle : Nat)
  | bindRenderbuffer (target : Nat) (handle : Nat)
  | renderbufferStorage (target : Nat) (format : Nat) (width : Int) (height : Int)
  | genFramebuffers (handle : Nat)
  | bindFramebuffer (target : Nat) (handle : Nat)
  | framebufferRenderbuffer (target : Nat) (attachment : Nat)
      (renderbuffertarget : Nat) (handle : Nat)
  | deleteFramebuffers (handles : List Nat)
  | deleteRenderbuffers (handles : List Nat)
  | makeCurrent
deriving DecidableEq, Repr

/-- The GL backend's choice of generated object names: the n-th
`glGenRenderbuffers` call returns `genRenderbuffersName n`, the n-th
`glGenFramebuffers` call returns `genFramebuffersName n`.  A name of `0`
models a silent backend allocation failure (the out-parameter keeps the
caller's zero initialisation). -/
structure GLBackend where
  genRenderbuffersName : Nat → Nat
  genFramebuffersName : Nat → Nat

/-- Observable GL state threaded through the embedding: how many names of
each kind were generated so far, and the trace of calls issued. -/
structure GLState where
  rbGenCalls : Nat
  fbGenCalls : Nat
  events : List GLEvent
deriving DecidableEq, Repr

def emptyGLState : GLState := { rbGenCalls := 0, fbGenCalls := 0, events := [] }

def glGenRenderbuffers (be : GLBackend) (st : GLState) : Nat × GLState :=
  let h := be.genRenderbuffersName st.rbGenCalls
  (h, { st with rbGenCalls := st.rbGenCalls + 1,
                events := st.events ++ [GLEvent.genRenderbuffers h] })

def glBindRenderbuffer (target handle : Nat) (st : GLState) : GLState :=
  { st with events := st.events ++ [GLEvent.bindRenderbuffer target handle] }

def glRenderbufferStorage (target format : Nat) (width height : Int)
    (st : GLState) : GLState :=
  { st with events := st.events ++
      [GLEvent.renderbufferStorage target format width height] }

def glGenFramebuffers (be : GLBackend) (st : GLState) : Nat × GLState :=
  let h := be.genFramebuffersName st.fbGenCalls
  (h, { st with fbGenCalls := st.fbGenCalls + 1,
                events := st.events ++ [GLEvent.genFramebuffers h] })

def glBindFramebuffer (target handle : Nat) (st : GLState) : GLState :=
  { st with events := st.events ++ [GLEvent.bindFramebuffer target handle] }

def glFramebufferRenderbuffer (target attachment renderbuffertarget handle : Nat)
    (st : GLState) : GLState :=
  { st with events := st.events ++
      [GLEvent.framebufferRenderbuffer target attachment renderbuffertarget handle] }

def glDeleteFramebuffers (handles : List Nat) (st : GLState) : GLState :=
  { st with events := st.events ++ [GLEvent.deleteFramebuffers handles] }

def glDeleteRenderbuffers (handles : List Nat) (st : GLState) : GLState :=
  { st with events := st.events ++ [GLEvent.deleteRenderbuffers handles] }

/-- `context.make_current()`: records the call and yields this context's
activation outcome. -/
def GLContext.make_current (c : GLContext) (st : GLState) :
    Except String Unit × GLState :=
  (c.make_current_result, { st with events := st.events ++ [GLEvent.makeCurrent] })

/-! ### The draw buffer itself (`struct DrawBuffer` and its impls) -/

/-- `struct DrawBuffer`: field order and names as in the source. -/
structure DrawBuffer where
  size : Size2D
  framebuffer : Nat
  stencil_render_buffer : Nat
  depth_render_buffer : Nat
  color_render_buffer : Nat
deriving DecidableEq, Repr

/-- `fn create_render_buffer(format, size)`: gen, bind, then size the
storage; returns whatever name the gen call produced.  No multisample
variant is ever selected. -/
def create_render_buffer (be : GLBackend) (format : Nat) (size : Size2D)
    (st : GLState) : Nat × GLState :=
  let (ret, st) := glGenRenderbuffers be st
  let st := glBindRenderbuffer RENDERBUFFER ret st
  let st := glRenderbufferStorage RENDERBUFFER format size.width size.height st
  (ret, st)

/-- The exact `&&#39;static str` error returned when antialiasing is requested
but unsupported (the apostrophe is escaped, the text is the source's). -/
def unsupported_antialiasing_error : String :=
  "The given GLContext doesn\x27t support requested antialising"

/-- `DrawBufferHelpers::attach_renderbuffers_to_framebuffer` (release
semantics: the `debug_assert!(gl::IsFramebuffer ...)` is compiled out).
Binds the framebuffer, then attaches each renderbuffer whose handle is
non-zero to its canonical attachment point; always returns `Ok(())`.
`&mut self` is modelled by returning the (possibly updated) receiver. -/
def attach_renderbuffers_to_framebuffer (self : DrawBuffer) (st : GLState) :
    Except String Unit × DrawBuffer × GLState :=
  let st := glBindFramebuffer FRAMEBUFFER self.framebuffer st
  let st := if self.color_render_buffer ≠ 0 then
      glFramebufferRenderbuffer FRAMEBUFFER COLOR_ATTACHMENT0 RENDERBUFFER
        self.color_render_buffer st
    else st
  let st := if self.depth_render_buffer ≠ 0 then
      glFramebufferRenderbuffer FRAMEBUFFER DEPTH_ATTACHMENT RENDERBUFFER
        self.depth_render_buffer st
    else st
  let st := if self.stencil_render_buffer ≠ 0 then
      glFramebufferRenderbuffer FRAMEBUFFER STENCIL_ATTACHMENT RENDERBUFFER
        self.stencil_render_buffer st
    else st
  (Except.ok (), self, st)

/-- `DrawBufferHelpers::init` (release semantics: the `debug_assert!`s on the
freshly generated handles are compiled out).  Always allocates the color
renderbuffer with `gl::RGBA4` — the `attrs.alpha` branch is commented out in
the source — then depth / stencil if requested, then the framebuffer, and
finally attaches everything. -/
def DrawBuffer.init (self : DrawBuffer) (attrs : GLContextAttributes)
    (be : GLBackend) (st : GLState) :
    Except String Unit × DrawBuffer × GLState :=
  let (c, st) := create_render_buffer be RGBA4 self.size st
  let self := { self with color_render_buffer := c }
  let (self, st) := if attrs.depth then
      let (d, st) := create_render_buffer be DEPTH_COMPONENT16 self.size st
      ({ self with depth_render_buffer := d }, st)
    else (self, st)
  let (self, st) := if attrs.stencil then
      let (s, st) := create_render_buffer be STENCIL_INDEX8 self.size st
      ({ self with stencil_render_buffer := s }, st)
    else (self, st)
  let (fb, st) := glGenFramebuffers be st
  let self := { self with framebuffer := fb }
  attach_renderbuffers_to_framebuffer self st

/-- `DrawBuffer::new` (release semantics: the trailing
`debug_assert!(gl::GetError() == gl::NO_ERROR)` is compiled out).  Checks
antialiasing support, builds the zeroed struct, activates the context with
`try!`, runs `init` with `try!`, and returns the populated buffer. -/
def DrawBuffer.new (context : GLContext) (size : Size2D) (be : GLBackend)
    (st : GLState) : Except String DrawBuffer × GLState :=
  let attrs := context.borrow_attributes
  let capabilities := context.borrow_capabilities
  if attrs.antialias && (capabilities.max_samples == 0) then
    (Except.error unsupported_antialiasing_error, st)
  else
    let draw_buffer : DrawBuffer :=
      { size := size, framebuffer := 0, color_render_buffer := 0,
        stencil_render_buffer := 0, depth_render_buffer := 0 }
    match context.make_current st with
    | (Except.error e, st) => (Except.error e, st)
    | (Except.ok _, st) =>
      match draw_buffer.init attrs be st with
      | (Except.error e, _, st) => (Except.error e, st)
      | (Except.ok _, draw_buffer, st) => (Except.ok draw_buffer, st)

/-- `impl Drop for DrawBuffer`: delete the framebuffer, then the three
renderbuffers (color, stencil, depth, in the source's array order) in one
`glDeleteRenderbuffers` call. -/
def DrawBuffer.drop (self : DrawBuffer) (st : GLState) : GLState :=
  let st := glDeleteFramebuffers [self.framebuffer] st
  glDeleteRenderbuffers
    [self.color_render_buffer, self.stencil_render_buffer,
     self.depth_render_buffer] st

/-! ### Derived observations on traces -/

/-- Allocation calls (`glGen*`) appearing in a trace. -/
def allocEvents (evts : List GLEvent) : List GLEvent :=
  evts.filter fun e =>
    match e with
    | GLEvent.genRenderbuffers _ => true
    | GLEvent.genFramebuffers _ => true
    | _ => false

/-- All renderbuffer names passed to `glDeleteRenderbuffers` in a trace. -/
def renderbufferDeletes : List GLEvent → List Nat
  | [] => []
  | GLEvent.deleteRenderbuffers hs :: rest => hs ++ renderbufferDeletes rest
  | _ :: rest => renderbufferDeletes rest

/-- All framebuffer names passed to `glDeleteFramebuffers` in a trace. -/
def framebufferDeletes : List GLEvent → List Nat
  | [] => []
  | GLEvent.deleteFramebuffers hs :: rest => hs ++ framebufferDeletes rest
  | _ :: rest => framebufferDeletes rest

/-- Backend contract: `glDeleteRenderbuffers` silently ignores the name 0,
so the renderbuffers actually released by a trace are the non-zero deleted
names. -/
def realRenderbufferDeletes (evts : List GLEvent) : List Nat :=
  (renderbufferDeletes evts).filter fun h => h ≠ 0

/-- Backend contract: `glDeleteFramebuffers` silently ignores the name 0. -/
def realFramebufferDeletes (evts : List GLEvent) : List Nat :=
  (framebufferDeletes evts).filter fun h => h ≠ 0

/-- The events a call to `attach_renderbuffers_to_framebuffer` appends to the
trace (they do not depend on the incoming state). -/
def attachEvents (self : DrawBuffer) : List GLEvent :=
  (attach_renderbuffers_to_framebuffer self emptyGLState).2.2.events

/-- The events one `Drop` run appends to the trace. -/
def dropEvents (self : DrawBuffer) : List GLEvent :=
  (DrawBuffer.drop self emptyGLState).events

/-! ### Framebuffer-attachment semantics of a trace

Replaying a trace against the GL framebuffer-attachment state: which
framebuffer is bound to `FRAMEBUFFER`, and which renderbuffer each
(framebuffer, attachment point) pair holds.  `glFramebufferRenderbuffer`
on the default framebuffer (bound name 0) is a GL error and changes
nothing; attaching renderbuffer 0 detaches. -/

@[ext]
structure AttachState where
  boundFramebuffer : Nat
  attachments : Nat → Nat → Option Nat

def applyGLEvent (s : AttachState) : GLEvent → AttachState
  | GLEvent.bindFramebuffer target h =>
      if target = FRAMEBUFFER then { s with boundFramebuffer := h } else s
  | GLEvent.framebufferRenderbuffer target att _ h =>
      if target = FRAMEBUFFER ∧ s.boundFramebuffer ≠ 0 then
        { s with attachments := fun fb a =>
            if fb = s.boundFramebuffer ∧ a = att then
              (if h = 0 then none else some h)
            else s.attachments fb a }
      else s
  | _ => s

def runGLEvents (s : AttachState) (evts : List GLEvent) : AttachState :=
  evts.foldl applyGLEvent s

/-- An attachment state with nothing bound and nothing attached. -/
def emptyAttachState : AttachState :=
  { boundFramebuffer := 0, attachments := fun _ _ => none }

/-! ### Concrete fixtures used by witnesses and counterexamples -/

/-- A backend whose every allocation fails: all generated names are 0. -/
def beZero : GLBackend := ⟨fun _ => 0, fun _ => 0⟩

/-- A healthy backend: renderbuffer names 1,2,3,…, framebuffer names
101,102,… — never zero. -/
def beSeq : GLBackend := ⟨fun n => n + 1, fun n => n + 101⟩

def sz64 : Size2D := ⟨64, 64⟩
def sz256 : Size2D := ⟨256, 256⟩

/-- Context requesting antialiasing while reporting no multisample support. -/
def ctxAA : GLContext :=
  { attributes := { alpha := true, depth := true, stencil := false, antialias := true },
    capabilities := { max_samples := 0 },
    make_current_result := Except.ok () }

/-- Context with no antialiasing request and a succeeding `make_current`. -/
def ctxPlain : GLContext :=
  { attributes := { alpha := true, depth := false, stencil := false, antialias := false },
    capabilities := { max_samples := 0 },
    make_current_result := Except.ok () }

/-- Context requesting depth (no antialiasing), `make_current` succeeds. -/
def ctxDepth : GLContext :=
  { attributes := { alpha := false, depth := true, stencil := false, antialias := false },
    capabilities := { max_samples := 0 },
    make_current_result := Except.ok () }

/-- Context requesting depth and stencil, `make_current` succeeds. -/
def ctxDepthStencil : GLContext :=
  { attributes := { alpha := true, depth := true, stencil := true, antialias := false },
    capabilities := { max_samples := 4 },
    make_current_result := Except.ok () }

/-- Context whose `make_current` fails. -/
def ctxBadCurrent : GLContext :=
  { attributes := { alpha := true, depth := true, stencil := true, antialias := false },
    capabilities := { max_samples := 0 },
    make_current_result := Except.error "could not activate the GLContext" }

/-- Fixture draw buffer with a depth renderbuffer but no stencil one. -/
def dbFix : DrawBuffer :=
  { size := sz64, framebuffer := 9, stencil_render_buffer := 0,
    depth_render_buffer := 7, color_render_buffer := 5 }

/-- The buffer `DrawBuffer::new` produces under `beZero`: every handle 0. -/
def dbAllZero : DrawBuffer :=
  { size := sz64, framebuffer := 0, stencil_render_buffer := 0,
    depth_render_buffer := 0, color_render_buffer := 0 }

/-- Like `dbAllZero` but sized 256×256 (result of `beZero` with `ctxDepth`). -/
def dbZero256 : DrawBuffer :=
  { size := sz256, framebuffer := 0, stencil_render_buffer := 0,
    depth_render_buffer := 0, color_render_buffer := 0 }

/-- The buffer `DrawBuffer::new ctxDepthStencil sz256` yields under `beSeq`. -/
def dbSeqDS : DrawBuffer :=
  { size := sz256, framebuffer := 101, stencil_render_buffer := 3,
    depth_render_buffer := 2, color_render_buffer := 1 }

/-- The GL state `DrawBuffer::new ctxDepthStencil sz256` leaves under `beSeq`
starting from the empty state. -/
def stSeqDS : GLState :=
  { rbGenCalls := 3, fbGenCalls := 1,
    events :=
      [GLEvent.makeCurrent,
       GLEvent.genRenderbuffers 1,
       GLEvent.bindRenderbuffer RENDERBUFFER 1,
       GLEvent.renderbufferStorage RENDERBUFFER RGBA4 256 256,
       GLEvent.genRenderbuffers 2,
       GLEvent.bindRenderbuffer RENDERBUFFER 2,
       GLEvent.renderbufferStorage RENDERBUFFER DEPTH_COMPONENT16 256 256,
       GLEvent.genRenderbuffers 3,
       GLEvent.bindRenderbuffer RENDERBUFFER 3,
       GLEvent.renderbufferStorage RENDERBUFFER STENCIL_INDEX8 256 256,
       GLEvent.genFramebuffers 101,
       GLEvent.bindFramebuffer FRAMEBUFFER 101,
       GLEvent.framebufferRenderbuffer FRAMEBUFFER COLOR_ATTACHMENT0 RENDERBUFFER 1,
       GLEvent.framebufferRenderbuffer FRAMEBUFFER DEPTH_ATTACHMENT RENDERBUFFER 2,
       GLEvent.framebufferRenderbuffer FRAMEBUFFER STENCIL_ATTACHMENT RENDERBUFFER 3] }

/-! ## Basic lemmas about the embedded operations -/

/-- `attach_renderbuffers_to_framebuffer` always returns `Ok(())`. -/
theorem attach_result_ok (self : DrawBuffer) (st : GLState) :
    (attach_renderbuffers_to_framebuffer self st).1 = Except.ok () := rfl

/-- The events a call to attach appends are `attachEvents self`, independently
of the incoming trace. -/
theorem attach_st_events (self : DrawBuffer) (st : GLState) :
    (attach_renderbuffers_to_framebuffer self st).2.2.events =
      st.events ++ attachEvents self := by
  by_cases h1 : self.color_render_buffer = 0 <;>
    by_cases h2 : self.depth_render_buffer = 0 <;>
      by_cases h3 : self.stencil_render_buffer = 0 <;>
        simp [attachEvents, attach_renderbuffers_to_framebuffer, glBindFramebuffer,
          glFramebufferRenderbuffer, emptyGLState, h1, h2, h3]

/-- Closed form of `attachEvents`: first the bind, then one attachment per
non-zero renderbuffer handle. -/
theorem attachEvents_eq (self : DrawBuffer) :
    attachEvents self =
      GLEvent.bindFramebuffer FRAMEBUFFER self.framebuffer ::
      ((if self.color_render_buffer ≠ 0 then
          [GLEvent.framebufferRenderbuffer FRAMEBUFFER COLOR_ATTACHMENT0
            RENDERBUFFER self.color_render_buffer] else []) ++
       (if self.depth_render_buffer ≠ 0 then
          [GLEvent.framebufferRenderbuffer FRAMEBUFFER DEPTH_ATTACHMENT
            RENDERBUFFER self.depth_render_buffer] else []) ++
       (if self.stencil_render_buffer ≠ 0 then
          [GLEvent.framebufferRenderbuffer FRAMEBUFFER STENCIL_ATTACHMENT
            RENDERBUFFER self.stencil_render_buffer] else [])) := by
  by_cases h1 : self.color_render_buffer = 0 <;>
    by_cases h2 : self.depth_render_buffer = 0 <;>
      by_cases h3 : self.stencil_render_buffer = 0 <;>
        simp [attachEvents, attach_renderbuffers_to_framebuffer, glBindFramebuffer,
          glFramebufferRenderbuffer, emptyGLState, h1, h2, h3]

/-- `init` cannot fail: it always ends in attach's `Ok(())`. -/
theorem init_components (self : DrawBuffer) (attrs : GLContextAttributes)
    (be : GLBackend) (st : GLState) :
    ∃ db2 st2, DrawBuffer.init self attrs be st = (Except.ok (), db2, st2) := by
  rcases attrs with ⟨al, dep, ste, aa⟩
  cases dep <;> cases ste <;> exact ⟨_, _, rfl⟩

/-- Counting a non-zero value is unaffected by dropping the zeros of a list. -/
theorem count_filter_nonzero (h : Nat) (hh : h ≠ 0) (l : List Nat) :
    List.count h (l.filter fun x => x ≠ 0) = List.count h l := by
  induction l with
  | nil => rfl
  | cons a l ih =>
    simp only [ne_eq, decide_not] at ih ⊢
    by_cases ha : a = 0
    · subst ha
      simp [List.filter_cons, List.count_cons, hh, ih]
    · simp [List.filter_cons, List.count_cons, ha, ih]

/-! ## C1 -/

/-- C1: if the context reports `max_samples == 0` and its attributes request
antialiasing, `DrawBuffer::new` fails with the unsupported-antialiasing error
and leaves the GL state untouched: `make_current` is never called and no
renderbuffer or framebuffer allocation (indeed no backend call at all)
happens, so the failing construction has no GPU side effects. -/
theorem C1_antialias_unsupported_fails_early (context : GLContext)
    (size : Size2D) (be : GLBackend) (st : GLState)
    (ha : context.borrow_attributes.antialias = true)
    (hs : context.borrow_capabilities.max_samples = 0) :
    DrawBuffer.new context size be st =
      (Except.error unsupported_antialiasing_error, st) := by
  simp [DrawBuffer.new, ha, hs]

/-- C1 witness: the concrete context `ctxAA` (antialias requested,
`max_samples = 0`) at size 64×64 over the zero backend. -/
theorem C1_antialias_unsupported_fails_early_w :
    ctxAA.borrow_attributes.antialias = true ∧
    ctxAA.borrow_capabilities.max_samples = 0 ∧
    DrawBuffer.new ctxAA sz64 beZero emptyGLState =
      (Except.error unsupported_antialiasing_error, emptyGLState) :=
  ⟨rfl, rfl, C1_antialias_unsupported_fails_early ctxAA sz64 beZero emptyGLState rfl rfl⟩

/-! ## C2 -/

/-- C2 (code bug): in release builds the `debug_assert!` on the color handle
is compiled out, and `DrawBuffer::new` has no error path for a zero mandatory
color renderbuffer handle: under a backend whose allocations all yield the
name 0, construction *succeeds*, returning a buffer whose color renderbuffer
handle is 0 — there is no `RenderbufferAllocationFailed` failure anywhere in
the code. -/
theorem C2_zero_color_handle_still_ok :
    (DrawBuffer.new ctxPlain sz64 beZero emptyGLState).1 = Except.ok dbAllZero ∧
    dbAllZero.color_render_buffer = 0 :=
  ⟨rfl, rfl⟩

/-! ## C4 -/

/-- C4: when the antialias check passes and `make_current` fails,
`DrawBuffer::new` short-circuits with exactly that error; the only backend
interaction on the trace is the `make_current` attempt itself, so no GPU
allocation is attempted and no partially constructed buffer escapes. -/
theorem C4_make_current_failure_propagates (context : GLContext)
    (size : Size2D) (be : GLBackend) (st : GLState) (e : String)
    (hcheck : (context.borrow_attributes.antialias &&
      (context.borrow_capabilities.max_samples == 0)) = false)
    (hmc : context.make_current_result = Except.error e) :
    DrawBuffer.new context size be st =
      (Except.error e, { st with events := st.events ++ [GLEvent.makeCurrent] }) ∧
    allocEvents (DrawBuffer.new context size be st).2.events =
      allocEvents st.events := by
  have hmain : DrawBuffer.new context size be st =
      (Except.error e, { st with events := st.events ++ [GLEvent.makeCurrent] }) := by
    simp [DrawBuffer.new, hcheck, GLContext.make_current, hmc]
  refine ⟨hmain, ?_⟩
  rw [hmain]
  simp [allocEvents, List.filter_append]

/-- C4 witness: the concrete context `ctxBadCurrent` with a failing
`make_current` over the healthy backend. -/
theorem C4_make_current_failure_propagates_w :
    (ctxBadCurrent.borrow_attributes.antialias &&
      (ctxBadCurrent.borrow_capabilities.max_samples == 0)) = false ∧
    ctxBadCurrent.make_current_result =
      Except.error "could not activate the GLContext" ∧
    DrawBuffer.new ctxBadCurrent sz64 beSeq emptyGLState =
      (Except.error "could not activate the GLContext",
       { emptyGLState with events := [GLEvent.makeCurrent] }) :=
  ⟨rfl, rfl,
    (C4_make_current_failure_propagates ctxBadCurrent sz64 beSeq emptyGLState
      "could not activate the GLContext" rfl rfl).1⟩

/-! ## C9 -/

/-- C9: `attach_renderbuffers_to_framebuffer` always returns `Ok(())` — its
error branch is unreachable — and therefore once the antialias check passes
and `make_current` succeeds, `DrawBuffer::new` returns `Ok` for *every*
backend, including one whose every allocation yields the zero handle. -/
theorem C9_attach_never_fails_new_ok (context : GLContext) (size : Size2D)
    (be : GLBackend) (st : GLState)
    (hcheck : (context.borrow_attributes.antialias &&
      (context.borrow_capabilities.max_samples == 0)) = false)
    (hmc : context.make_current_result = Except.ok ()) :
    (∀ (self : DrawBuffer) (glst : GLState),
      (attach_renderbuffers_to_framebuffer self glst).1 = Except.ok ()) ∧
    ∃ db st2, DrawBuffer.new context size be st = (Except.ok db, st2) := by
  refine ⟨fun self glst => rfl, ?_⟩
  obtain ⟨db2, st2, hinit⟩ := init_components
    { size := size, framebuffer := 0, color_render_buffer := 0,
      stencil_render_buffer := 0, depth_render_buffer := 0 }
    context.borrow_attributes be
    { st with events := st.events ++ [GLEvent.makeCurrent] }
  refine ⟨db2, st2, ?_⟩
  simp [DrawBuffer.new, hcheck, GLContext.make_current, hmc, hinit]

/-- C9 witness: the zero backend with a plain context — every allocation
returns handle 0, yet construction succeeds. -/
theorem C9_attach_never_fails_new_ok_w :
    (∀ (self : DrawBuffer) (glst : GLState),
      (attach_renderbuffers_to_framebuffer self glst).1 = Except.ok ()) ∧
    ∃ db st2, DrawBuffer.new ctxPlain sz64 beZero emptyGLState =
      (Except.ok db, st2) :=
  C9_attach_never_fails_new_ok ctxPlain sz64 beZero emptyGLState rfl rfl

/-! ## C10 -/

/-- C10: `attach_renderbuffers_to_framebuffer` only issues GL calls; the
receiver comes back with every field — size, framebuffer handle and the
three renderbuffer handles — unchanged. -/
theorem C10_attach_preserves_fields (self : DrawBuffer) (st : GLState) :
    ((attach_renderbuffers_to_framebuffer self st).2.1).size = self.size ∧
    ((attach_renderbuffers_to_framebuffer self st).2.1).framebuffer = self.framebuffer ∧
    ((attach_renderbuffers_to_framebuffer self st).2.1).color_render_buffer =
      self.color_render_buffer ∧
    ((attach_renderbuffers_to_framebuffer self st).2.1).depth_render_buffer =
      self.depth_render_buffer ∧
    ((attach_renderbuffers_to_framebuffer self st).2.1).stencil_render_buffer =
      self.stencil_render_buffer ∧
    (attach_renderbuffers_to_framebuffer self st).2.1 = self :=
  ⟨rfl, rfl, rfl, rfl, rfl, rfl⟩

/-! ## C5 -/

/-- C5: one `Drop` run deletes exactly the framebuffer handle and the three
renderbuffer handles (color, stencil, depth).  Under the backend contract
that deleting the name 0 is a no-op, the renderbuffers really released are
exactly the non-zero handles the instance held — zero depth/stencil handles
release nothing — and each non-zero handle is released exactly as many times
as the instance holds it (once, when the handles are distinct). -/
theorem C5_drop_releases_handles (self : DrawBuffer) (st : GLState) :
    (self.drop st).events = st.events ++ dropEvents self ∧
    dropEvents self =
      [GLEvent.deleteFramebuffers [self.framebuffer],
       GLEvent.deleteRenderbuffers
         [self.color_render_buffer, self.stencil_render_buffer,
          self.depth_render_buffer]] ∧
    realRenderbufferDeletes (dropEvents self) =
      [self.color_render_buffer, self.stencil_render_buffer,
       self.depth_render_buffer].filter (fun h => h ≠ 0) ∧
    realFramebufferDeletes (dropEvents self) =
      [self.framebuffer].filter (fun h => h ≠ 0) ∧
    0 ∉ realRenderbufferDeletes (dropEvents self) ∧
    0 ∉ realFramebufferDeletes (dropEvents self) ∧
    ∀ h, h ≠ 0 →
      List.count h (realRenderbufferDeletes (dropEvents self)) =
        List.count h
          [self.color_render_buffer, self.stencil_render_buffer,
           self.depth_render_buffer] := by
  refine ⟨?_, rfl, ?_, ?_, ?_, ?_, ?_⟩
  · simp [DrawBuffer.drop, dropEvents, glDeleteFramebuffers,
      glDeleteRenderbuffers, emptyGLState]
  · simp [realRenderbufferDeletes, dropEvents, DrawBuffer.drop,
      glDeleteFramebuffers, glDeleteRenderbuffers, emptyGLState,
      renderbufferDeletes]
  · simp [realFramebufferDeletes, dropEvents, DrawBuffer.drop,
      glDeleteFramebuffers, glDeleteRenderbuffers, emptyGLState,
      framebufferDeletes]
  · simp [realRenderbufferDeletes, List.mem_filter]
  · simp [realFramebufferDeletes, List.mem_filter]
  · intro h hh
    have : realRenderbufferDeletes (dropEvents self) =
        [self.color_render_buffer, self.stencil_render_buffer,
         self.depth_render_buffer].filter (fun h => h ≠ 0) := by
      simp [realRenderbufferDeletes, dropEvents, DrawBuffer.drop,
        glDeleteFramebuffers, glDeleteRenderbuffers, emptyGLState,
        renderbufferDeletes]
    rw [this, count_filter_nonzero h hh]

/-! ## C3 -/

/-- C3 counterexample: under the all-zero backend the construction with a
depth-requesting context *succeeds* (`Ok`), yet the returned buffer's color
handle is 0 and its depth handle is 0 although depth was requested — so, as
stated over every successful construction, the claimed invariant fails. -/
theorem C3_counterexample_zero_backend :
    ctxDepth.borrow_attributes.depth = true ∧
    (DrawBuffer.new ctxDepth sz256 beZero emptyGLState).1 = Except.ok dbZero256 ∧
    dbZero256.color_render_buffer = 0 ∧
    dbZero256.depth_render_buffer = 0 :=
  ⟨rfl, rfl, rfl, rfl⟩

/-- C3 (amended): provided the backend hands back a non-zero name for every
renderbuffer and framebuffer allocation, every successful construction
returns a buffer whose color handle is non-zero, whose depth handle is
non-zero iff depth was requested — allocated with the 16-bit depth format —
and whose stencil handle is non-zero iff stencil was requested — allocated
with the 8-bit stencil-index format. -/
theorem C3_handles_iff_requested (context : GLContext) (size : Size2D)
    (be : GLBackend) (st : GLState) (db : DrawBuffer) (st2 : GLState)
    (hrb : ∀ n, be.genRenderbuffersName n ≠ 0)
    (hok : DrawBuffer.new context size be st = (Except.ok db, st2)) :
    db.color_render_buffer ≠ 0 ∧
    (db.depth_render_buffer ≠ 0 ↔ context.borrow_attributes.depth = true) ∧
    (db.stencil_render_buffer ≠ 0 ↔ context.borrow_attributes.stencil = true) ∧
    (context.borrow_attributes.depth = true →
      GLEvent.renderbufferStorage RENDERBUFFER DEPTH_COMPONENT16
        size.width size.height ∈ st2.events) ∧
    (context.borrow_attributes.stencil = true →
      GLEvent.renderbufferStorage RENDERBUFFER STENCIL_INDEX8
        size.width size.height ∈ st2.events) := by
  rcases context with ⟨⟨al, dep, ste, aa⟩, ⟨ms⟩, mcr⟩
  by_cases haa : (aa && (ms == 0)) = true
  · simp [DrawBuffer.new, GLContext.borrow_attributes,
      GLContext.borrow_capabilities, haa] at hok
  · rcases mcr with e | u
    · simp [DrawBuffer.new, GLContext.borrow_attributes,
        GLContext.borrow_capabilities, haa, GLContext.make_current] at hok
    · cases u
      cases dep <;> cases ste <;>
        · simp [DrawBuffer.new, DrawBuffer.init, create_render_buffer,
            glGenRenderbuffers, glBindRenderbuffer, glRenderbufferStorage,
            glGenFramebuffers, attach_renderbuffers_to_framebuffer,
            glBindFramebuffer, glFramebufferRenderbuffer,
            GLContext.make_current, GLContext.borrow_attributes,
            GLContext.borrow_capabilities, haa, hrb] at hok
          obtain ⟨hdb, hst⟩ := hok
          subst hdb
          subst hst
          simp [GLContext.borrow_attributes, hrb, List.mem_append]

/-- C3 witness: the healthy sequential backend with a context requesting
both depth and stencil — construction succeeds with handles 1 (color),
2 (depth), 3 (stencil). -/
theorem C3_handles_iff_requested_w :
    (∀ n, beSeq.genRenderbuffersName n ≠ 0) ∧
    DrawBuffer.new ctxDepthStencil sz256 beSeq emptyGLState =
      (Except.ok dbSeqDS, stSeqDS) ∧
    dbSeqDS.color_render_buffer ≠ 0 ∧
    (dbSeqDS.depth_render_buffer ≠ 0 ↔
      ctxDepthStencil.borrow_attributes.depth = true) ∧
    (dbSeqDS.stencil_render_buffer ≠ 0 ↔
      ctxDepthStencil.borrow_attributes.stencil = true) :=
  have hrbw : ∀ n, beSeq.genRenderbuffersName n ≠ 0 := fun n => Nat.succ_ne_zero n
  have hc := C3_handles_iff_requested ctxDepthStencil sz256 beSeq emptyGLState
    dbSeqDS stSeqDS hrbw rfl
  ⟨hrbw, rfl, hc.1, hc.2.1, hc.2.2.1⟩

/-! ## C6 -/

/-- C6: one attach call appends exactly `attachEvents`: a bind of the
framebuffer followed by one attachment per non-zero renderbuffer handle
(zero handles are skipped — no attachment call ever carries handle 0).
Replaying those events against any attachment state with the framebuffer
handle non-zero: the framebuffer ends up bound, every non-zero renderbuffer
is attached at its canonical point (color→COLOR_ATTACHMENT0, depth→
DEPTH_ATTACHMENT, stencil→STENCIL_ATTACHMENT), and a zero handle leaves its
attachment point untouched. -/
theorem C6_attach_canonical_points (self : DrawBuffer) (st : GLState)
    (s0 : AttachState) (hfb : self.framebuffer ≠ 0) :
    (attach_renderbuffers_to_framebuffer self st).2.2.events =
      st.events ++ attachEvents self ∧
    (∀ t a r hh, GLEvent.framebufferRenderbuffer t a r hh ∈ attachEvents self →
      hh ≠ 0) ∧
    (runGLEvents s0 (attachEvents self)).boundFramebuffer = self.framebuffer ∧
    (self.color_render_buffer ≠ 0 →
      (runGLEvents s0 (attachEvents self)).attachments self.framebuffer
        COLOR_ATTACHMENT0 = some self.color_render_buffer) ∧
    (self.color_render_buffer = 0 →
      (runGLEvents s0 (attachEvents self)).attachments self.framebuffer
        COLOR_ATTACHMENT0 = s0.attachments self.framebuffer COLOR_ATTACHMENT0) ∧
    (self.depth_render_buffer ≠ 0 →
      (runGLEvents s0 (attachEvents self)).attachments self.framebuffer
        DEPTH_ATTACHMENT = some self.depth_render_buffer) ∧
    (self.depth_render_buffer = 0 →
      (runGLEvents s0 (attachEvents self)).attachments self.framebuffer
        DEPTH_ATTACHMENT = s0.attachments self.framebuffer DEPTH_ATTACHMENT) ∧
    (self.stencil_render_buffer ≠ 0 →
      (runGLEvents s0 (attachEvents self)).attachments self.framebuffer
        STENCIL_ATTACHMENT = some self.stencil_render_buffer) ∧
    (self.stencil_render_buffer = 0 →
      (runGLEvents s0 (attachEvents self)).attachments self.framebuffer
        STENCIL_ATTACHMENT = s0.attachments self.framebuffer STENCIL_ATTACHMENT) := by
  by_cases hc : self.color_render_buffer = 0 <;>
    by_cases hd : self.depth_render_buffer = 0 <;>
      by_cases hs : self.stencil_render_buffer = 0 <;>
        refine ⟨attach_st_events self st, ?_, ?_, ?_, ?_, ?_, ?_, ?_, ?_⟩ <;>
          simp [attachEvents_eq, runGLEvents, applyGLEvent, hc, hd, hs, hfb,
            FRAMEBUFFER, RENDERBUFFER, COLOR_ATTACHMENT0, DEPTH_ATTACHMENT,
            STENCIL_ATTACHMENT] <;>
            omega

/-- C6 witness: the fixture buffer (framebuffer 9, color 5, depth 7, no
stencil) replayed on the empty attachment state. -/
theorem C6_attach_canonical_points_w :
    dbFix.framebuffer ≠ 0 ∧
    dbFix.color_render_buffer ≠ 0 ∧
    (runGLEvents emptyAttachState (attachEvents dbFix)).attachments
      dbFix.framebuffer COLOR_ATTACHMENT0 = some dbFix.color_render_buffer ∧
    (runGLEvents emptyAttachState (attachEvents dbFix)).attachments
      dbFix.framebuffer DEPTH_ATTACHMENT = some dbFix.depth_render_buffer ∧
    (runGLEvents emptyAttachState (attachEvents dbFix)).attachments
      dbFix.framebuffer STENCIL_ATTACHMENT =
      emptyAttachState.attachments dbFix.framebuffer STENCIL_ATTACHMENT :=
  have hc := C6_attach_canonical_points dbFix emptyGLState emptyAttachState
    (by decide)
  ⟨by decide, by decide,
    hc.2.2.2.1 (by decide), hc.2.2.2.2.2.1 (by decide),
    hc.2.2.2.2.2.2.2.2 rfl⟩

/-! ## C7 -/

/-- C7: `init` never reads the `alpha` attribute — flipping it changes
nothing — and the mandatory color renderbuffer is always the very first
allocation, sized with the fixed `RGBA4` (4-bit-per-channel, alpha-capable)
format: the first three backend calls of `init` are gen / bind / storage
with `RGBA4`, and the returned buffer's color handle is that first
generated name. -/
theorem C7_color_always_rgba4 (self : DrawBuffer) (attrs : GLContextAttributes)
    (be : GLBackend) (st : GLState) (b : Bool) :
    DrawBuffer.init self { attrs with alpha := b } be st =
      DrawBuffer.init self attrs be st ∧
    ((DrawBuffer.init self attrs be st).2.1).color_render_buffer =
      be.genRenderbuffersName st.rbGenCalls ∧
    ∃ rest, ((DrawBuffer.init self attrs be st).2.2).events =
      st.events ++
        (GLEvent.genRenderbuffers (be.genRenderbuffersName st.rbGenCalls) ::
         GLEvent.bindRenderbuffer RENDERBUFFER
           (be.genRenderbuffersName st.rbGenCalls) ::
         GLEvent.renderbufferStorage RENDERBUFFER RGBA4
           self.size.width self.size.height :: rest) := by
  refine ⟨rfl, ?_, ?_⟩ <;>
    rcases attrs with ⟨al, dep, ste, aa⟩ <;>
      cases dep <;> cases ste
  · rfl
  · rfl
  · rfl
  · rfl
  all_goals
    simp [DrawBuffer.init, create_render_buffer, glGenRenderbuffers,
      glBindRenderbuffer, glRenderbufferStorage, glGenFramebuffers,
      attach_st_events, List.append_assoc, List.cons_append, List.nil_append,
      List.singleton_append]

/-! ## C8 -/

/-- C8: attaching twice with unchanged handles is idempotent — replaying the
events of two consecutive `attach_renderbuffers_to_framebuffer` calls on the
same instance produces exactly the attachment state of a single call, for
every starting attachment state: the second call rebinds the same
framebuffer and reattaches the same handles to the same points. -/
theorem C8_attach_idempotent (self : DrawBuffer) (s0 : AttachState) :
    runGLEvents s0 (attachEvents self ++ attachEvents self) =
      runGLEvents s0 (attachEvents self) := by
  by_cases hfb : self.framebuffer = 0 <;>
    by_cases hc : self.color_render_buffer = 0 <;>
      by_cases hd : self.depth_render_buffer = 0 <;>
        by_cases hs : self.stencil_render_buffer = 0 <;>
          · simp [attachEvents_eq, runGLEvents, applyGLEvent, hfb, hc, hd, hs,
              FRAMEBUFFER, RENDERBUFFER, COLOR_ATTACHMENT0, DEPTH_ATTACHMENT,
              STENCIL_ATTACHMENT, AttachState.mk.injEq]
            try (funext fb a; split_ifs <;> simp_all)

end OffscreenCtx
